import Mathlib

/-!
Shallow embedding of the query-compilation and change-event core of the
repository, together with proofs of the spec's claims about it.

Sections:
1. The boolean operation tree of
   `src/packages/graphql/src/translate/cypher-builder-2/operations/boolean.ts`.
2. The arithmetic operator resolver and update execution exercised by the
   integration tests in `src/unnamed/part_000` (the resolver implementation
   itself is not part of the provided sources, so it is modelled from the
   spec, sections 4.2, 4.3 and 7).
3. The change-event payload types of `src/unnamed/part_002`
   (`generateSubscriptionTypes`), with event production modelled from the
   spec, section 4.4.
-/

namespace GraphQL

/-! ### 1. Boolean operation tree (boolean.ts) -/

/-- Rendering context threaded through `getCypher` calls.  The boolean
operations of `boolean.ts` only pass it on to their children, so its exact
shape is irrelevant to them; it is modelled as the allocation state the spec
describes (a counter and a name map).  Mutation of the environment by a
child render is modelled by explicit state passing. -/
structure CypherEnvironment where
  counter : Nat
  params : List (String × String)
deriving DecidableEq

/-- `type BooleanOperator = "AND" | "NOT" | "OR"` (boolean.ts line 24). -/
inductive BooleanOperator where
  | AND
  | NOT
  | OR
deriving DecidableEq

/-- The operator token as interpolated by `${this.operator}`. -/
def BooleanOperator.render : BooleanOperator → String
  | .AND => "AND"
  | .NOT => "NOT"
  | .OR => "OR"

/-- The operation tree restricted to the nodes `boolean.ts` builds.
`comparison` stands for an external `ComparisonOp` child (a `BooleanOpChild`
leaf from this file's point of view); its rendering is an arbitrary function
of the environment, returning the rendered text and the possibly-updated
environment.  `binaryOp` is the class `BinaryOp`, `notOp` the class
`NotOp`. -/
inductive Op where
  | comparison (render : CypherEnvironment → String × CypherEnvironment)
  | binaryOp (operator : BooleanOperator) (left : Op) (right : Op)
  | notOp (child : Op)

/-- `getCypher` of an operation node.  `BinaryOp.cypher` (lines 48-53)
renders the left child, then the right child against the environment as
left by the left render, and returns
`` `(${leftCypher} ${this.operator} ${rightCypher})` ``.
`NotOp.cypher` (lines 65-67) ignores its environment argument and returns
`` `${this.operator}` `` only — it never calls `child.getCypher`. -/
def Op.getCypher : Op → CypherEnvironment → String × CypherEnvironment
  | .comparison f, env => f env
  | .binaryOp operator left right, env =>
    match left.getCypher env with
    | (leftCypher, env1) =>
      match right.getCypher env1 with
      | (rightCypher, env2) =>
        ("(" ++ leftCypher ++ " " ++ operator.render ++ " " ++ rightCypher ++ ")", env2)
  | .notOp _, env => (BooleanOperator.NOT.render, env)

/-- Modelled from the spec: the `Operation` base class with its
`addChildren` registration is not under `src/`; per spec 4.1 every
operation exposes `children() -> ordered sequence of Operation`.
`BinaryOp`'s constructor calls `this.addChildren(left, right)`
(boolean.ts line 43) and `NotOp`'s calls `this.addChildren(this.child)`
(line 62); an external comparison leaf contributes no children visible to
this file. -/
def Op.children : Op → List Op
  | .comparison _ => []
  | .binaryOp _ left right => [left, right]
  | .notOp child => [child]

/-- `export function and(left, right)` (boolean.ts lines 70-72). -/
def and (left right : Op) : Op := .binaryOp .AND left right

/-- `export function not(child)` (boolean.ts lines 74-76). -/
def not (child : Op) : Op := .notOp child

/-- `export function or(left, right)` (boolean.ts lines 78-80). -/
def or (left right : Op) : Op := .binaryOp .OR left right

/-! ### 2. Arithmetic operator resolver and update execution

Modelled from the spec (sections 4.2, 4.3, 6 and 7): the resolver and the
update execution path are not under `src/`; only the integration tests of
`src/unnamed/part_000` that exercise them are. -/

/-- Declared scalar type of a field (spec section 3: Field Update Request).
`Integer32` is the GraphQL `Int` of the tests, `Integer64` their `BigInt`,
`Float` their `Float`. -/
inductive ScalarType where
  | Integer32
  | Integer64
  | Float
deriving DecidableEq

/-- Client-visible update operators (spec sections 3 and 6). -/
inductive UpdateOperator where
  | SET
  | INCREMENT
  | DECREMENT
  | ADD
  | SUBTRACT
  | MULTIPLY
  | DIVIDE
deriving DecidableEq

/-- A stored scalar value: integers are exact, floats are modelled as exact
rationals with an explicit finiteness bound (see `floatFinite`). -/
inductive StoredValue where
  | intVal (i : ℤ)
  | floatVal (q : ℚ)
deriving DecidableEq

/-- The error taxonomy of spec section 7. -/
inductive UpdateError where
  | AmbiguousUpdate
  | TypeOperatorMismatch
  | Overflow
  | DivisionByZero
  | NullOperand
deriving DecidableEq

/-- One field-scoped update instruction: the GraphQL input key
`viewers_INCREMENT: x` becomes `⟨"viewers", .INCREMENT, x⟩` and the plain
key `viewers: x` (implicit direct set) becomes `⟨"viewers", .SET, x⟩`. -/
structure FieldUpdate where
  field : String
  operator : UpdateOperator
  operand : StoredValue
deriving DecidableEq

/-- Property snapshot of a node or relationship: field name to value.
A field absent from the list holds no value (null). -/
def PropMap := List (String × StoredValue)
deriving instance DecidableEq for PropMap

/-- Declared field types, injected per request by the schema collaborator
(spec section 6). -/
def Schema := List (String × ScalarType)

/-- Association-list lookup used for both property maps and schemas. -/
def lookupKey {α : Type} : List (String × α) → String → Option α
  | [], _ => none
  | (g, v) :: rest, f => if g = f then some v else lookupKey rest f

/-- Read a field of a property snapshot; `none` is null/absent. -/
def lookupProp (props : PropMap) (f : String) : Option StoredValue :=
  lookupKey props f

/-- Write one field of a property snapshot, replacing an existing entry. -/
def setProp : PropMap → String → StoredValue → PropMap
  | [], f, v => [(f, v)]
  | (g, w) :: rest, f, v =>
    if g = f then (f, v) :: rest else (g, w) :: setProp rest f v

/-- Signed-range check of spec 4.2 rule 3: Integer32 arithmetic is checked
against the signed 32-bit range, Integer64 against the signed 64-bit
range. -/
def intInRange : ScalarType → ℤ → Bool
  | .Integer32, r => decide (-(2 ^ 31) ≤ r ∧ r ≤ 2 ^ 31 - 1)
  | .Integer64, r => decide (-(2 ^ 63) ≤ r ∧ r ≤ 2 ^ 63 - 1)
  | .Float, _ => false

/-- The largest finite IEEE-754 double (`Number.MAX_VALUE`), as an exact
rational. -/
def maxFloat : ℚ := 2 ^ 1024 - 2 ^ 971

/-- Finiteness of a float result (spec 4.2 rule 3: a result becoming
non-finite is rejected): the magnitude stays within the largest finite
double. -/
def floatFinite (q : ℚ) : Bool := decide (-maxFloat ≤ q ∧ q ≤ maxFloat)

/-- Type/operator compatibility of spec 4.2 rule 2: INCREMENT/DECREMENT
apply to the integer types, ADD/SUBTRACT/MULTIPLY/DIVIDE to Float, the
direct SET to every type. -/
def compatible : ScalarType → UpdateOperator → Bool
  | _, .SET => true
  | .Integer32, .INCREMENT => true
  | .Integer32, .DECREMENT => true
  | .Integer64, .INCREMENT => true
  | .Integer64, .DECREMENT => true
  | .Float, .ADD => true
  | .Float, .SUBTRACT => true
  | .Float, .MULTIPLY => true
  | .Float, .DIVIDE => true
  | _, _ => false

/-- Modelled from the spec: the Arithmetic Operator Resolver (spec 4.2).
Given the declared type, the operator, the currently stored value of the
field and the operand, produce the new value or a classified failure:
rule 2 rejects a mismatched operator with `TypeOperatorMismatch`; rule 5
rejects arithmetic on a null current value with `NullOperand`; rule 4
rejects division by a zero-valued operand with `DivisionByZero`; rule 3
rejects a result outside the representable range with `Overflow`. -/
def applyOperator (t : ScalarType) (op : UpdateOperator)
    (current : Option StoredValue) (operand : StoredValue) :
    Except UpdateError StoredValue :=
  match op with
  | .SET =>
    match t, operand with
    | .Integer32, .intVal i => .ok (.intVal i)
    | .Integer64, .intVal i => .ok (.intVal i)
    | .Float, .floatVal q => .ok (.floatVal q)
    | _, _ => .error .TypeOperatorMismatch
  | .INCREMENT | .DECREMENT =>
    match t with
    | .Float => .error .TypeOperatorMismatch
    | _ =>
      match current with
      | none => .error .NullOperand
      | some cv =>
        match cv, operand with
        | .intVal c, .intVal x =>
          let r : ℤ := if op = .INCREMENT then c + x else c - x
          if intInRange t r then .ok (.intVal r) else .error .Overflow
        | _, _ => .error .TypeOperatorMismatch
  | .ADD | .SUBTRACT | .MULTIPLY | .DIVIDE =>
    match t with
    | .Float =>
      match current with
      | none => .error .NullOperand
      | some cv =>
        match cv, operand with
        | .floatVal c, .floatVal x =>
          if op = .DIVIDE ∧ x = 0 then .error .DivisionByZero
          else
            let r : ℚ :=
              match op with
              | .ADD => c + x
              | .SUBTRACT => c - x
              | .MULTIPLY => c * x
              | _ => c / x
            if floatFinite r then .ok (.floatVal r) else .error .Overflow
        | _, _ => .error .TypeOperatorMismatch
    | _ => .error .TypeOperatorMismatch

/-- Ambiguity detection of spec 4.2 rule 1: more than one operator
(including the implicit direct set) targeting the same field in one
request. `true` means every targeted field is targeted exactly once. -/
def fieldsNodup : List FieldUpdate → Bool
  | [] => true
  | u :: rest =>
    !(decide (u.field ∈ rest.map FieldUpdate.field)) && fieldsNodup rest

/-- Modelled from the spec: resolve every field update of one block against
the pre-request snapshot (spec 4.3: updates are logically simultaneous,
each evaluated against the pre-request snapshot); the first classified
failure aborts the whole block. -/
def resolveUpdates (schema : Schema) (props : PropMap) :
    List FieldUpdate → Except UpdateError (List (String × StoredValue))
  | [] => .ok []
  | u :: rest =>
    match lookupKey schema u.field with
    | none => .error .TypeOperatorMismatch
    | some t =>
      match applyOperator t u.operator (lookupProp props u.field) u.operand with
      | .error e => .error e
      | .ok v =>
        match resolveUpdates schema props rest with
        | .error e => .error e
        | .ok vs => .ok ((u.field, v) :: vs)

/-- Apply the resolved new values to a snapshot. -/
def applyAssignments (props : PropMap) : List (String × StoredValue) → PropMap
  | [] => props
  | (f, v) :: rest => applyAssignments (setProp props f v) rest

/-- The stored state one update request touches: the matched node's
properties and the matched relationship's edge properties. -/
structure GraphState where
  nodeProps : PropMap
  edgeProps : PropMap
deriving DecidableEq

/-- One update request: direct scalar updates on the node and edge-property
updates under the nested relationship update block (spec section 6). -/
structure UpdateRequest where
  nodeUpdates : List FieldUpdate
  edgeUpdates : List FieldUpdate
deriving DecidableEq

/-- Modelled from the spec: execute one update request (spec 4.2, 4.3, 7).
The ambiguity check runs first, before any expression is built; then every
update of either block is resolved against the pre-request snapshots; any
failure fails the whole request and leaves the stored state unchanged
(spec 7: either the whole compiled statement succeeds or none of its
effects are observable).  The returned state is what a read immediately
after the request observes. -/
def runRequest (nodeSchema edgeSchema : Schema) (st : GraphState)
    (req : UpdateRequest) : Option UpdateError × GraphState :=
  if fieldsNodup req.nodeUpdates && fieldsNodup req.edgeUpdates then
    match resolveUpdates nodeSchema st.nodeProps req.nodeUpdates,
          resolveUpdates edgeSchema st.edgeProps req.edgeUpdates with
    | .error e, _ => (some e, st)
    | .ok _, .error e => (some e, st)
    | .ok ns, .ok es =>
      (none, ⟨applyAssignments st.nodeProps ns, applyAssignments st.edgeProps es⟩)
  else (some .AmbiguousUpdate, st)

/-- The exact mathematical result of an arithmetic operator, with no range
restriction: the spec's "mathematically expected result" (section 8),
stated independently of the resolver for comparison with it. -/
def exactResult : UpdateOperator → StoredValue → StoredValue → Option StoredValue
  | .INCREMENT, .intVal c, .intVal x => some (.intVal (c + x))
  | .DECREMENT, .intVal c, .intVal x => some (.intVal (c - x))
  | .ADD, .floatVal c, .floatVal x => some (.floatVal (c + x))
  | .SUBTRACT, .floatVal c, .floatVal x => some (.floatVal (c - x))
  | .MULTIPLY, .floatVal c, .floatVal x => some (.floatVal (c * x))
  | .DIVIDE, .floatVal c, .floatVal x => some (.floatVal (c / x))
  | _, _, _ => none

/-- A value within the representable range of a declared type. -/
def resultInRange : ScalarType → StoredValue → Bool
  | t, .intVal i => intInRange t i
  | .Float, .floatVal q => floatFinite q
  | _, .floatVal _ => false

/-! ### 3. Change events (part_002, `generateSubscriptionTypes`) -/

/-- `EventType` enum: CREATE, UPDATE, DELETE. -/
inductive EventType where
  | CREATE
  | UPDATE
  | DELETE
deriving DecidableEq

/-- The `properties` member of a `SubscriptionsEvent`: the "old" and "new"
property snapshots, either possibly absent. -/
structure EventProperties where
  old : Option PropMap
  new : Option PropMap
deriving DecidableEq

/-- A change event as consumed by the payload resolvers of
`generateSubscriptionTypes`. -/
structure SubscriptionsEvent where
  event : EventType
  properties : EventProperties
deriving DecidableEq

/-- The `created<Node>` payload resolver:
`(source) => source.properties.new` (part_002 line 53). -/
def resolveCreatedPayload (source : SubscriptionsEvent) : Option PropMap :=
  source.properties.new

/-- The `previousState` resolver of the updated event:
`(source) => source.properties.old` (part_002 line 67). -/
def resolveUpdatedPreviousState (source : SubscriptionsEvent) : Option PropMap :=
  source.properties.old

/-- The `updated<Node>` payload resolver:
`(source) => source.properties.new` (part_002 line 71). -/
def resolveUpdatedPayload (source : SubscriptionsEvent) : Option PropMap :=
  source.properties.new

/-- The `deleted<Node>` payload resolver:
`(source) => source.properties.old` (part_002 line 85). -/
def resolveDeletedPayload (source : SubscriptionsEvent) : Option PropMap :=
  source.properties.old

/-- Modelled from the spec: event production is not under `src/`; per spec
4.4, on a successful create the engine emits CREATED with only "new"
populated. -/
def createdEvent (newProps : PropMap) : SubscriptionsEvent :=
  ⟨.CREATE, ⟨none, some newProps⟩⟩

/-- Modelled from the spec: on a successful update the engine emits UPDATED
with the full pre-write and post-write property snapshots (spec 4.4). -/
def updatedEvent (oldProps newProps : PropMap) : SubscriptionsEvent :=
  ⟨.UPDATE, ⟨some oldProps, some newProps⟩⟩

/-- Modelled from the spec: on delete the engine emits DELETED with only
"old" populated (spec 4.4). -/
def deletedEvent (oldProps : PropMap) : SubscriptionsEvent :=
  ⟨.DELETE, ⟨some oldProps, none⟩⟩

/-! ### Theorems for the claims -/

/-- Claim C1 (code bug): the spec commits NOT to render as a prefix keyword
applied to its child's rendered text, i.e. `NOT <child>`; but
`NotOp.cypher` returns only the operator token and never renders the
child.  At the concrete failing input `not c` with `c` a comparison
rendering `x > 1`, the code produces exactly `NOT`, which differs from the
claimed `NOT x > 1`. -/
theorem notOp_drops_child :
    (GraphQL.not (.comparison fun env => ("x > 1", env))).getCypher ⟨0, []⟩
      = ("NOT", ⟨0, []⟩)
    ∧ "NOT" ≠ "NOT " ++ "x > 1" :=
  ⟨rfl, by decide⟩

/-- Claim C9: for all boolean-valued operations `l` and `r` and every
environment, `and l r` renders as `(<left> AND <right>)` and `or l r` as
`(<left> OR <right>)`, where the left child is rendered first and the
right child is rendered against the environment state the left render
left behind. -/
theorem and_or_render (l r : Op) (env e1 e2 : CypherEnvironment)
    (ls rs : String)
    (hl : l.getCypher env = (ls, e1)) (hr : r.getCypher e1 = (rs, e2)) :
    (GraphQL.and l r).getCypher env = ("(" ++ ls ++ " AND " ++ rs ++ ")", e2)
    ∧ (GraphQL.or l r).getCypher env = ("(" ++ ls ++ " OR " ++ rs ++ ")", e2) := by
  have key : ∀ t x y : String, x ++ " " ++ t ++ " " ++ y = x ++ (" " ++ t ++ " ") ++ y := by
    intro t x y
    simp [String.append_assoc]
  refine ⟨?_, ?_⟩ <;>
    simp [GraphQL.and, GraphQL.or, Op.getCypher, hl, hr, BooleanOperator.render] <;>
    rw [key] <;> rfl

/-- Witness for C9 at concrete children rendering `a` and `b`. -/
theorem and_or_render_witness :
    (GraphQL.and (.comparison fun env => ("a", env))
        (.comparison fun env => ("b", env))).getCypher ⟨0, []⟩
      = ("(" ++ "a" ++ " AND " ++ "b" ++ ")", ⟨0, []⟩)
    ∧ (GraphQL.or (.comparison fun env => ("a", env))
        (.comparison fun env => ("b", env))).getCypher ⟨0, []⟩
      = ("(" ++ "a" ++ " OR " ++ "b" ++ ")", ⟨0, []⟩) :=
  and_or_render (.comparison fun env => ("a", env))
    (.comparison fun env => ("b", env)) ⟨0, []⟩ ⟨0, []⟩ ⟨0, []⟩ "a" "b" rfl rfl

/-- Reading back the field just written. -/
theorem lookupProp_setProp_self (p : PropMap) (f : String) (v : StoredValue) :
    lookupProp (setProp p f v) f = some v := by
  induction p with
  | nil => simp [setProp, lookupProp, lookupKey]
  | cons hd tl ih =>
    obtain ⟨g, w⟩ := hd
    simp only [lookupProp] at ih ⊢
    by_cases h : g = f <;> simp [setProp, lookupKey, h, ih]

/-- Writing one field leaves every other field unchanged. -/
theorem lookupProp_setProp_ne (p : PropMap) (f g : String) (v : StoredValue)
    (h : f ≠ g) : lookupProp (setProp p f v) g = lookupProp p g := by
  induction p with
  | nil => simp [setProp, lookupProp, lookupKey, h]
  | cons hd tl ih =>
    obtain ⟨k, w⟩ := hd
    simp only [lookupProp] at ih ⊢
    by_cases hk : k = f <;> simp [setProp, lookupKey, hk, h, ih]

/-- `fieldsNodup` decides exactly distinctness of the targeted fields. -/
theorem fieldsNodup_iff (us : List FieldUpdate) :
    fieldsNodup us = true ↔ (us.map FieldUpdate.field).Nodup := by
  induction us with
  | nil => simp [fieldsNodup]
  | cons u rest ih => simp [fieldsNodup, List.nodup_cons, ih]

/-- Inversion of a successful single-field node update: the field's type
was found, the resolver produced a value, and the new state is the old one
with exactly that field rewritten. -/
theorem runRequest_single_inv (ns es : Schema) (st : GraphState)
    (u : FieldUpdate) (st' : GraphState)
    (h : runRequest ns es st ⟨[u], []⟩ = (none, st')) :
    ∃ t v, lookupKey ns u.field = some t
      ∧ applyOperator t u.operator (lookupProp st.nodeProps u.field) u.operand = .ok v
      ∧ st' = ⟨setProp st.nodeProps u.field v, st.edgeProps⟩ := by
  rcases hT : lookupKey ns u.field with _ | t
  · simp [runRequest, fieldsNodup, resolveUpdates, hT] at h
  rcases hA : applyOperator t u.operator (lookupProp st.nodeProps u.field) u.operand
    with e | v
  · simp [runRequest, fieldsNodup, resolveUpdates, hT, hA] at h
  · have hst : st' = ⟨setProp st.nodeProps u.field v, st.edgeProps⟩ := by
      simp [runRequest, fieldsNodup, resolveUpdates, hT, hA, applyAssignments] at h
      exact h.symm
    refine ⟨t, v, ?_, ?_, hst⟩ <;> simp [hT, hA]

/-- Claim C10: the registered children of `and l r` and `or l r` are
exactly `[l, r]` in left-to-right order, and the registered children of
`not c` are exactly `[c]`, even though `NotOp`'s own cypher output does
not include the child. -/
theorem boolean_children (l r c : Op) :
    (GraphQL.and l r).children = [l, r]
    ∧ (GraphQL.or l r).children = [l, r]
    ∧ (GraphQL.not c).children = [c] :=
  ⟨rfl, rfl, rfl⟩

/-- Claim C2: an INCREMENT or DECREMENT on an Integer32 or Integer64 field
whose mathematical result leaves the signed range of the declared type
fails the whole request with Overflow and leaves the stored value
unchanged (a read immediately after returns the pre-request value);
likewise a Float ADD whose result is non-finite. -/
theorem overflow_fails_request :
    (∀ (ns es : Schema) (st : GraphState) (f : String) (t : ScalarType)
        (op : UpdateOperator) (c x : ℤ),
      lookupKey ns f = some t →
      t = .Integer32 ∨ t = .Integer64 →
      op = .INCREMENT ∨ op = .DECREMENT →
      lookupProp st.nodeProps f = some (.intVal c) →
      intInRange t (if op = .INCREMENT then c + x else c - x) = false →
      runRequest ns es st ⟨[⟨f, op, .intVal x⟩], []⟩ = (some .Overflow, st)
      ∧ lookupProp (runRequest ns es st ⟨[⟨f, op, .intVal x⟩], []⟩).2.nodeProps f
          = some (.intVal c))
    ∧
    (∀ (ns es : Schema) (st : GraphState) (f : String) (c x : ℚ),
      lookupKey ns f = some .Float →
      lookupProp st.nodeProps f = some (.floatVal c) →
      floatFinite (c + x) = false →
      runRequest ns es st ⟨[⟨f, .ADD, .floatVal x⟩], []⟩ = (some .Overflow, st)
      ∧ lookupProp (runRequest ns es st ⟨[⟨f, .ADD, .floatVal x⟩], []⟩).2.nodeProps f
          = some (.floatVal c)) := by
  constructor
  · intro ns es st f t op c x hT ht hop hP hR
    have hmain : runRequest ns es st ⟨[⟨f, op, .intVal x⟩], []⟩ = (some .Overflow, st) := by
      rcases ht with rfl | rfl <;> rcases hop with rfl | rfl <;>
        simp_all [runRequest, fieldsNodup, resolveUpdates, applyOperator]
    exact ⟨hmain, by rw [hmain]; exact hP⟩
  · intro ns es st f c x hT hP hR
    have hmain : runRequest ns es st ⟨[⟨f, .ADD, .floatVal x⟩], []⟩
        = (some .Overflow, st) := by
      simp_all [runRequest, fieldsNodup, resolveUpdates, applyOperator]
    exact ⟨hmain, by rw [hmain]; exact hP⟩

/-- Witness for C2: Integer32 at its maximum incremented past the range,
and Float maximum added to itself, both rejected with Overflow and the
stored value intact. -/
theorem overflow_fails_request_witness :
    (runRequest [("viewers", .Integer32)] [] ⟨[("viewers", .intVal (2 ^ 31 - 1))], []⟩
        ⟨[⟨"viewers", .INCREMENT, .intVal (2 ^ 31 - 1)⟩], []⟩
      = (some .Overflow, ⟨[("viewers", .intVal (2 ^ 31 - 1))], []⟩))
    ∧ (runRequest [("pay", .Float)] [] ⟨[("pay", .floatVal maxFloat)], []⟩
        ⟨[⟨"pay", .ADD, .floatVal maxFloat⟩], []⟩
      = (some .Overflow, ⟨[("pay", .floatVal maxFloat)], []⟩)) :=
  have hff : floatFinite (maxFloat + maxFloat) = false := by
    have hpos : (0 : ℚ) < maxFloat := by unfold maxFloat; norm_num
    unfold floatFinite
    rw [decide_eq_false_iff_not]
    rintro ⟨-, hle⟩
    linarith
  ⟨(overflow_fails_request.1 [("viewers", .Integer32)] [] ⟨[("viewers", .intVal (2 ^ 31 - 1))], []⟩
      "viewers" .Integer32 .INCREMENT (2 ^ 31 - 1) (2 ^ 31 - 1)
      rfl (Or.inl rfl) (Or.inl rfl) rfl (by decide)).1,
   (overflow_fails_request.2 [("pay", .Float)] [] ⟨[("pay", .floatVal maxFloat)], []⟩
      "pay" maxFloat maxFloat rfl rfl hff).1⟩

/-- Claim C3: a request in which more than one update operator (the
implicit direct SET included) targets the same field — in the node block
or in the nested edge-property block — fails as a whole with
AmbiguousUpdate before anything is resolved, and the stored state is
unchanged. -/
theorem ambiguous_update_fails :
    (∀ (ns es : Schema) (st : GraphState) (req : UpdateRequest),
      ¬ (req.nodeUpdates.map FieldUpdate.field).Nodup →
      runRequest ns es st req = (some .AmbiguousUpdate, st))
    ∧
    (∀ (ns es : Schema) (st : GraphState) (req : UpdateRequest),
      ¬ (req.edgeUpdates.map FieldUpdate.field).Nodup →
      runRequest ns es st req = (some .AmbiguousUpdate, st)) := by
  constructor
  · intro ns es st req h
    have hb : fieldsNodup req.nodeUpdates = false :=
      Bool.eq_false_iff.mpr fun hc => h ((fieldsNodup_iff _).mp hc)
    simp [runRequest, hb]
  · intro ns es st req h
    have hb : fieldsNodup req.edgeUpdates = false :=
      Bool.eq_false_iff.mpr fun hc => h ((fieldsNodup_iff _).mp hc)
    simp [runRequest, hb]

/-- Witness for C3: `viewers` set and incremented in one node block, and
`pay` added and set in one edge block, both rejected with AmbiguousUpdate
and the state returned untouched. -/
theorem ambiguous_update_fails_witness :
    (runRequest [("viewers", .Integer32)] [] ⟨[("viewers", .intVal 100)], []⟩
        ⟨[⟨"viewers", .SET, .intVal 10⟩, ⟨"viewers", .INCREMENT, .intVal 10⟩], []⟩
      = (some .AmbiguousUpdate, ⟨[("viewers", .intVal 100)], []⟩))
    ∧ (runRequest [] [("pay", .Float)] ⟨[], [("pay", .floatVal 100)]⟩
        ⟨[], [⟨"pay", .ADD, .floatVal 50⟩, ⟨"pay", .SET, .floatVal 50⟩]⟩
      = (some .AmbiguousUpdate, ⟨[], [("pay", .floatVal 100)]⟩)) :=
  ⟨ambiguous_update_fails.1 [("viewers", .Integer32)] [] ⟨[("viewers", .intVal 100)], []⟩
      ⟨[⟨"viewers", .SET, .intVal 10⟩, ⟨"viewers", .INCREMENT, .intVal 10⟩], []⟩ (by decide),
   ambiguous_update_fails.2 [] [("pay", .Float)] ⟨[], [("pay", .floatVal 100)]⟩
      ⟨[], [⟨"pay", .ADD, .floatVal 50⟩, ⟨"pay", .SET, .floatVal 50⟩]⟩ (by decide)⟩

/-- Claim C4: DIVIDE of a Float field by a zero-valued operand fails with
DivisionByZero and does not mutate state: the value read after the failed
request equals the pre-request value. -/
theorem divide_by_zero_fails (ns es : Schema) (st : GraphState) (f : String)
    (c : ℚ)
    (hT : lookupKey ns f = some .Float)
    (hP : lookupProp st.nodeProps f = some (.floatVal c)) :
    runRequest ns es st ⟨[⟨f, .DIVIDE, .floatVal 0⟩], []⟩ = (some .DivisionByZero, st)
    ∧ lookupProp (runRequest ns es st ⟨[⟨f, .DIVIDE, .floatVal 0⟩], []⟩).2.nodeProps f
        = some (.floatVal c) := by
  have hmain : runRequest ns es st ⟨[⟨f, .DIVIDE, .floatVal 0⟩], []⟩
      = (some .DivisionByZero, st) := by
    simp_all [runRequest, fieldsNodup, resolveUpdates, applyOperator]
  exact ⟨hmain, by rw [hmain]; exact hP⟩

/-- Witness for C4: 10.0 divided by 0.0 rejected, stored 10.0 intact. -/
theorem divide_by_zero_fails_witness :
    runRequest [("viewers", .Float)] [] ⟨[("viewers", .floatVal 10)], []⟩
        ⟨[⟨"viewers", .DIVIDE, .floatVal 0⟩], []⟩
      = (some .DivisionByZero, ⟨[("viewers", .floatVal 10)], []⟩) :=
  (divide_by_zero_fails [("viewers", .Float)] [] ⟨[("viewers", .floatVal 10)], []⟩
    "viewers" 10 rfl rfl).1

/-- Claim C5: any arithmetic operator (every operator of the per-type
vocabulary except the direct SET) applied to a field whose current stored
value is null fails the request with NullOperand — the absent base value
is not treated as zero — and the field is still null afterwards. -/
theorem null_operand_fails (ns es : Schema) (st : GraphState) (f : String)
    (t : ScalarType) (op : UpdateOperator) (operand : StoredValue)
    (hT : lookupKey ns f = some t)
    (hcomp : compatible t op = true)
    (hop : op ≠ .SET)
    (hP : lookupProp st.nodeProps f = none) :
    runRequest ns es st ⟨[⟨f, op, operand⟩], []⟩ = (some .NullOperand, st)
    ∧ lookupProp (runRequest ns es st ⟨[⟨f, op, operand⟩], []⟩).2.nodeProps f = none := by
  have hmain : runRequest ns es st ⟨[⟨f, op, operand⟩], []⟩ = (some .NullOperand, st) := by
    cases t <;> cases op <;>
      simp_all [runRequest, fieldsNodup, resolveUpdates, applyOperator, compatible]
  exact ⟨hmain, by rw [hmain]; exact hP⟩

/-- Witness for C5: INCREMENT of an absent Integer32 field rejected with
NullOperand, the field still absent afterwards. -/
theorem null_operand_fails_witness :
    runRequest [("viewers", .Integer32)] [] ⟨[], []⟩
        ⟨[⟨"viewers", .INCREMENT, .intVal 10⟩], []⟩
      = (some .NullOperand, ⟨[], []⟩) :=
  (null_operand_fails [("viewers", .Integer32)] [] ⟨[], []⟩ "viewers"
    .Integer32 .INCREMENT (.intVal 10) rfl rfl (by decide) rfl).1

/-- Claim C6: a valid in-range combination of stored value, operator,
operand and declared type succeeds with no error, and the stored (and
returned) value is the exact mathematical result of the operator. -/
theorem valid_op_succeeds (ns es : Schema) (st : GraphState) (f : String)
    (t : ScalarType) (op : UpdateOperator) (cv operand r : StoredValue)
    (hT : lookupKey ns f = some t)
    (hP : lookupProp st.nodeProps f = some cv)
    (hcomp : compatible t op = true)
    (hop : op ≠ .SET)
    (hE : exactResult op cv operand = some r)
    (hR : resultInRange t r = true)
    (hdiv : op = .DIVIDE → operand ≠ .floatVal 0) :
    runRequest ns es st ⟨[⟨f, op, operand⟩], []⟩
      = (none, ⟨setProp st.nodeProps f r, st.edgeProps⟩)
    ∧ lookupProp (runRequest ns es st ⟨[⟨f, op, operand⟩], []⟩).2.nodeProps f = some r := by
  have hmain : runRequest ns es st ⟨[⟨f, op, operand⟩], []⟩
      = (none, ⟨setProp st.nodeProps f r, st.edgeProps⟩) := by
    cases op <;> cases t <;> cases cv <;> cases operand <;>
      simp_all [runRequest, fieldsNodup, resolveUpdates, applyOperator, compatible,
        exactResult, resultInRange, applyAssignments] <;>
      (subst hE; simp_all [applyAssignments])
  refine ⟨hmain, ?_⟩
  rw [hmain]
  exact lookupProp_setProp_self _ _ _

/-- Witness for C6: Integer32 0 INCREMENT 5 succeeds and stores exactly
5. -/
theorem valid_op_succeeds_witness :
    runRequest [("viewers", .Integer32)] [] ⟨[("viewers", .intVal 0)], []⟩
        ⟨[⟨"viewers", .INCREMENT, .intVal 5⟩], []⟩
      = (none, ⟨setProp [("viewers", .intVal 0)] "viewers" (.intVal 5), []⟩)
    ∧ lookupProp (runRequest [("viewers", .Integer32)] [] ⟨[("viewers", .intVal 0)], []⟩
        ⟨[⟨"viewers", .INCREMENT, .intVal 5⟩], []⟩).2.nodeProps "viewers"
      = some (.intVal 5) :=
  valid_op_succeeds [("viewers", .Integer32)] [] ⟨[("viewers", .intVal 0)], []⟩
    "viewers" .Integer32 .INCREMENT (.intVal 0) (.intVal 5) (.intVal 5)
    rfl rfl rfl (by decide) rfl (by decide) (fun h => nomatch h)

/-- Claim C7: two updates of two distinct fields in one request succeed
together, and each field ends up with the value its own single-field
update would have produced against the pre-request snapshot — neither
update feeds the other's arithmetic. -/
theorem independent_updates (ns es : Schema) (st st1 st2 : GraphState)
    (u1 u2 : FieldUpdate)
    (hne : u1.field ≠ u2.field)
    (h1 : runRequest ns es st ⟨[u1], []⟩ = (none, st1))
    (h2 : runRequest ns es st ⟨[u2], []⟩ = (none, st2)) :
    ∃ st', runRequest ns es st ⟨[u1, u2], []⟩ = (none, st')
      ∧ lookupProp st'.nodeProps u1.field = lookupProp st1.nodeProps u1.field
      ∧ lookupProp st'.nodeProps u2.field = lookupProp st2.nodeProps u2.field := by
  obtain ⟨t1, v1, hT1, hA1, rfl⟩ := runRequest_single_inv ns es st u1 st1 h1
  obtain ⟨t2, v2, hT2, hA2, rfl⟩ := runRequest_single_inv ns es st u2 st2 h2
  refine ⟨⟨setProp (setProp st.nodeProps u1.field v1) u2.field v2, st.edgeProps⟩,
    ?_, ?_, ?_⟩
  · have hnodup : fieldsNodup [u1, u2] = true := by simp [fieldsNodup, hne]
    simp [runRequest, fieldsNodup, hnodup, hne, resolveUpdates, hT1, hA1, hT2, hA2,
      applyAssignments]
  · rw [lookupProp_setProp_ne _ _ _ _ (Ne.symm hne), lookupProp_setProp_self]
  · rw [lookupProp_setProp_self, lookupProp_setProp_self]

/-- Witness for C7: `length_DECREMENT: 10` and `viewers_INCREMENT: 10`
in one request, from 100 and 100, give 90 and 110, matching the two
single-field runs. -/
theorem independent_updates_witness :
    ∃ st', runRequest [("viewers", .Integer32), ("length", .Integer32)] []
        ⟨[("viewers", .intVal 100), ("length", .intVal 100)], []⟩
        ⟨[⟨"length", .DECREMENT, .intVal 10⟩, ⟨"viewers", .INCREMENT, .intVal 10⟩], []⟩
      = (none, st')
      ∧ lookupProp st'.nodeProps "length"
          = lookupProp (GraphState.mk [("viewers", .intVal 100), ("length", .intVal 90)] []).nodeProps
              "length"
      ∧ lookupProp st'.nodeProps "viewers"
          = lookupProp (GraphState.mk [("viewers", .intVal 110), ("length", .intVal 100)] []).nodeProps
              "viewers" :=
  independent_updates [("viewers", .Integer32), ("length", .Integer32)] []
    ⟨[("viewers", .intVal 100), ("length", .intVal 100)], []⟩
    (GraphState.mk [("viewers", .intVal 100), ("length", .intVal 90)] [])
    (GraphState.mk [("viewers", .intVal 110), ("length", .intVal 100)] [])
    ⟨"length", .DECREMENT, .intVal 10⟩ ⟨"viewers", .INCREMENT, .intVal 10⟩
    (by decide) (by decide) (by decide)

/-- Claim C8: every change event satisfies the kind/snapshot invariant and
the payload resolvers expose the matching snapshot: a created event has
"old" empty and its payload field resolves to the "new" snapshot; a
deleted event has "new" empty and its payload resolves to "old"; an
updated event carries both snapshots, `previousState` resolving to the
full pre-write snapshot and the payload to the full post-write
snapshot. -/
theorem change_event_invariant (o n : PropMap) :
    (createdEvent n).event = .CREATE
    ∧ (createdEvent n).properties.old = none
    ∧ resolveCreatedPayload (createdEvent n) = some n
    ∧ (deletedEvent o).event = .DELETE
    ∧ (deletedEvent o).properties.new = none
    ∧ resolveDeletedPayload (deletedEvent o) = some o
    ∧ (updatedEvent o n).event = .UPDATE
    ∧ (updatedEvent o n).properties.old = some o
    ∧ (updatedEvent o n).properties.new = some n
    ∧ resolveUpdatedPreviousState (updatedEvent o n) = some o
    ∧ resolveUpdatedPayload (updatedEvent o n) = some n :=
  ⟨rfl, rfl, rfl, rfl, rfl, rfl, rfl, rfl, rfl, rfl, rfl⟩

end GraphQL
